import Mathlib

/-
Verification of the wake-coordination core of bus-queue (src/src/async_.rs):
a broadcast publish/subscribe primitive whose Publisher drains newly
registered wake handles before each broadcast and notifies all active
handles after a successful one, and whose Subscriber suspends on empty
reads by re-registering its own wake handle.

The bare broadcast buffer and the scheduler task type are external
collaborators (the bare channel lives in repository code not under src/);
they are modelled from the spec where indicated. Everything else is a
shallow embedding of src/src/async_.rs. Wake handles (AtomicTask cells)
are shared between a Subscriber and the Waker active list, so they live
in a heap (a list of cells indexed by handle id) inside the global state;
notification is modelled as the list of handle ids that get notified.
-/

namespace BusQueue

/-- Error returned by the bare channel broadcast, carrying the rejected
item verbatim (mirrors SendError of item type T). -/
structure SendError (T : Type) where
  item : T
deriving DecidableEq

/-- Result of a non-blocking receive attempt on the bare cursor. -/
inductive TryRecvError where
  | Empty
  | Disconnected
deriving DecidableEq

/-- Poll result of a stream or future (futures 0.1 Async). -/
inductive Async (A : Type) where
  | Ready (a : A)
  | NotReady
deriving DecidableEq

/-- Sink acceptance result (futures 0.1 AsyncSink): Ready means the item
was accepted, NotReady returns it. -/
inductive AsyncSink (T : Type) where
  | Ready
  | NotReady (item : T)
deriving DecidableEq

/-- Modelled from the spec: the bare broadcast buffer is an external
collaborator (its code is repository code not under src/). It stores the
log of all broadcast items (subscriber cursors index into it), knows the
current subscriber count and whether the publish side is still alive, and
broadcast fails, returning the item inside a SendError, exactly when all
subscribers are gone. -/
structure BareChannel (T : Type) where
  capacity : Nat
  log : List T
  subCount : Nat
  pubAlive : Bool
deriving DecidableEq

/-- Modelled from the spec: broadcast appends the item to the log on
success and fails with SendError when no subscriber is left. -/
def BareChannel.broadcast (ch : BareChannel T) (item : T) :
    Except (SendError T) (BareChannel T) :=
  if ch.subCount = 0 then .error ⟨item⟩
  else .ok { ch with log := ch.log ++ [item] }

/-- Capacity of the bounded registration queue: the source constructs it
with mpsc channel of size 10 (src/src/async_.rs line 151). -/
def regQueueCapacity : Nat := 10

/-- The shared state of one async broadcast channel: the bare channel,
the heap of AtomicTask cells (cell i holds the scheduler task currently
registered in wake handle i, if any), the Waker active list of handle ids
(waker.sleepers) and the contents of the bounded registration queue. -/
structure AsyncState (T : Type) where
  chan : BareChannel T
  tasks : List (Option Nat)
  sleepers : List Nat
  regQueue : List Nat
deriving DecidableEq

/-- A Subscriber: an independent read cursor into the bare channel log
plus the id of its own wake handle (sleeper.sleeper, an Arc AtomicTask
shared with the Waker heap). The sender half is shared state, so it is
not duplicated here. -/
structure Subscriber where
  cursor : Nat
  sleeperId : Nat
deriving DecidableEq

/-- Embeds channel(size) (src/src/async_.rs lines 18-32) together with
alarm(AtomicTask::new()) (lines 149-164): a fresh bare channel with one
subscriber, one fresh unregistered wake handle (heap cell 0) seeded
directly into waker.sleepers, and an empty registration queue. Returns
the shared state and the initial Subscriber. -/
def channel (T : Type) (size : Nat) : AsyncState T × Subscriber :=
  ({ chan := { capacity := size, log := [], subCount := 1, pubAlive := true },
     tasks := [none],
     sleepers := [0],
     regQueue := [] },
   { cursor := 0, sleeperId := 0 })

/-- Embeds Waker::register_receivers (src/src/async_.rs lines 139-146).
The source body is a for loop over self.receiver.recv(): a single recv,
which dequeues at most one queued registration and pushes it onto
sleepers. (In Rust a blocking recv would also block on an empty queue
while senders are alive; blocking is outside this value-level model, and
the source line does not even type-check against the futures mpsc
Receiver, whose API has no recv; the declared return type
impl Future also does not match the unit body.) -/
def registerReceivers (st : AsyncState T) : AsyncState T :=
  match st.regQueue with
  | [] => st
  | h :: t => { st with sleepers := st.sleepers ++ [h], regQueue := t }

/-- Embeds Publisher::wake_all (src/src/async_.rs lines 33-39): notifies
every handle in waker.sleepers in order; the returned list is the list of
notified handle ids (the wake events). The state is not changed. -/
def wakeAll (st : AsyncState T) : List Nat :=
  st.sleepers

/-- Embeds Sink::start_send for Publisher (src/src/async_.rs lines
51-57): first register_receivers, then broadcast through the bare
publisher; on Ok the map closure runs wake_all and yields
AsyncSink::Ready; on Err the error is returned unchanged and wake_all is
not called. Returns the result, the new state, and the wake events. -/
def startSend (st : AsyncState T) (item : T) :
    Except (SendError T) (AsyncSink T) × AsyncState T × List Nat :=
  let st1 := registerReceivers st
  match st1.chan.broadcast item with
  | .ok ch => (.ok .Ready, { st1 with chan := ch }, wakeAll { st1 with chan := ch })
  | .error e => (.error e, st1, [])

/-- Embeds Sink::poll_complete for Publisher (src/src/async_.rs lines
58-60): always Ok(Async::Ready(())), state untouched. -/
def pollComplete (st : AsyncState T) :
    Except (SendError T) (Async Unit) × AsyncState T :=
  (.ok (.Ready ()), st)

/-- Embeds Sink::close for Publisher (src/src/async_.rs lines 61-63):
delegates to poll_complete. -/
def close (st : AsyncState T) :
    Except (SendError T) (Async Unit) × AsyncState T :=
  pollComplete st

/-- Iterated close: state and list of results of n successive calls. -/
def closeN (st : AsyncState T) : Nat → AsyncState T × List (Except (SendError T) (Async Unit))
  | 0 => (st, [])
  | n + 1 =>
    let r := close st
    let rest := closeN r.2 n
    (rest.1, r.1 :: rest.2)

/-- Embeds Drop for Publisher (src/src/async_.rs lines 66-70): calls
close (a no-op that cannot fail, so unwrap cannot panic) and then the
bare publish handle is dropped, which the spec-modelled bare channel
records as the publish side being gone. -/
def dropPublisher (st : AsyncState T) : AsyncState T :=
  { (close st).2 with chan := { (close st).2.chan with pubAlive := false } }

/-- Dropping a Subscriber: the bare channel loses one subscriber (its
reference-counting contract, external); nothing else of the shared state
is touched. -/
def dropSubscriber (st : AsyncState T) : AsyncState T :=
  { st with chan := { st.chan with subCount := st.chan.subCount - 1 } }

/-- Modelled from the spec: try_recv on the bare cursor. Yields the next
log item and advances the cursor when one is available; otherwise Empty
while the publish side is alive, and Disconnected once it is gone and the
log is drained. -/
def Subscriber.tryRecv (sub : Subscriber) (ch : BareChannel T) :
    Except TryRecvError (T × Subscriber) :=
  match ch.log.get? sub.cursor with
  | some x => .ok (x, { sub with cursor := sub.cursor + 1 })
  | none => if ch.pubAlive then .error .Empty else .error .Disconnected

/-- Embeds Stream::poll for Subscriber (src/src/async_.rs lines 84-95):
try_recv on the bare cursor; on Ok yield the item; on Empty register the
current scheduler task (currentTask models task::current()) into its own
AtomicTask cell (sleeper.sleeper.register()) and return NotReady; on
Disconnected return Ready(None). Returns the poll result, the updated
Subscriber and the updated shared state. -/
def Subscriber.poll (sub : Subscriber) (st : AsyncState T) (currentTask : Nat) :
    Except Unit (Async (Option T)) × Subscriber × AsyncState T :=
  match sub.tryRecv st.chan with
  | .ok (x, sub1) => (.ok (.Ready (some x)), sub1, st)
  | .error .Empty =>
      (.ok .NotReady, sub,
        { st with tasks := st.tasks.set sub.sleeperId (some currentTask) })
  | .error .Disconnected => (.ok (.Ready none), sub, st)

/-- Embeds Clone for Subscriber (src/src/async_.rs lines 98-110): mints a
fresh AtomicTask (a new unregistered heap cell, id = current heap length),
sends it through the sleeper sender into the bounded registration queue,
and returns a Subscriber with a clone of the bare cursor and the fresh
handle. The source discards the value returned by send, so a submission
that fails on a full queue is not surfaced; we model the value-level
effect of a bounded non-blocking send whose result is ignored: the handle
is enqueued when the queue is below capacity and silently dropped
otherwise. (As written the source line also does not compile: the futures
Sink send method takes the sender by value and yields a future that is
never polled.) -/
def Subscriber.clone (sub : Subscriber) (st : AsyncState T) :
    Subscriber × AsyncState T :=
  let newId := st.tasks.length
  ({ cursor := sub.cursor, sleeperId := newId },
   { st with
     tasks := st.tasks ++ [none],
     regQueue :=
       if st.regQueue.length < regQueueCapacity then st.regQueue ++ [newId]
       else st.regQueue })

/-- Results of a sequence of successive polls of one Subscriber, one per
current-task value in the list, threading subscriber and state. -/
def pollTrace (sub : Subscriber) (st : AsyncState T) :
    List Nat → List (Except Unit (Async (Option T)))
  | [] => []
  | ct :: cts =>
    let r := sub.poll st ct
    r.1 :: pollTrace r.2.1 r.2.2 cts

/-- Concrete state: one live subscriber, two pending registrations
(handles 1 and 2) queued, handle 0 active. -/
def stC1 : AsyncState Nat :=
  { chan := { capacity := 1, log := [], subCount := 1, pubAlive := true },
    tasks := [none, none, none],
    sleepers := [0],
    regQueue := [1, 2] }

/-- Concrete state: all subscribers gone (subCount is 0), so the next
broadcast fails. -/
def stC2w : AsyncState Nat :=
  { chan := { capacity := 1, log := [], subCount := 0, pubAlive := true },
    tasks := [none],
    sleepers := [0],
    regQueue := [] }

/-- Concrete state: empty log, live publisher, empty registration
queue. -/
def stC3c : AsyncState Nat :=
  { chan := { capacity := 2, log := [], subCount := 1, pubAlive := true },
    tasks := [none],
    sleepers := [0],
    regQueue := [] }

/-- Concrete state: exhausted two-item log with live publisher, two
handles in the heap. -/
def stC3w : AsyncState Nat :=
  { chan := { capacity := 2, log := [10, 20], subCount := 1, pubAlive := true },
    tasks := [none, none],
    sleepers := [0],
    regQueue := [] }

/-- Concrete state: publisher gone and the one buffered item already
consumed, so the cursor at position 1 sees Disconnected. -/
def stC4w : AsyncState Nat :=
  { chan := { capacity := 1, log := [5], subCount := 1, pubAlive := false },
    tasks := [none],
    sleepers := [0],
    regQueue := [] }

/-- Concrete state: registration queue full (10 entries), heap of 11
handles. -/
def stC5c : AsyncState Nat :=
  { chan := { capacity := 4, log := [], subCount := 1, pubAlive := true },
    tasks := List.replicate 11 none,
    sleepers := [0],
    regQueue := [1, 2, 3, 4, 5, 6, 7, 8, 9, 10] }

/-- Concrete state: registration queue empty, heap of two handles. -/
def stC5w : AsyncState Nat :=
  { chan := { capacity := 4, log := [9], subCount := 2, pubAlive := true },
    tasks := [none, none],
    sleepers := [0],
    regQueue := [] }

/-- Concrete state: registration queue full with handles 2 through 11,
heap of 12 handles, handles 0 and 1 active. -/
def stC6 : AsyncState Nat :=
  { chan := { capacity := 3, log := [7], subCount := 2, pubAlive := true },
    tasks := List.replicate 12 none,
    sleepers := [0, 1],
    regQueue := [2, 3, 4, 5, 6, 7, 8, 9, 10, 11] }

/-- Concrete state: two registrations (handles 2 and 3) queued. -/
def stC7 : AsyncState Nat :=
  { chan := { capacity := 2, log := [], subCount := 1, pubAlive := true },
    tasks := [none, none, none, none],
    sleepers := [0],
    regQueue := [2, 3] }

/-- Concrete state: registration queue full with handles 5 through 14,
heap of 15 handles. -/
def stC10c : AsyncState Nat :=
  { chan := { capacity := 2, log := [], subCount := 1, pubAlive := true },
    tasks := List.replicate 15 none,
    sleepers := [0],
    regQueue := [5, 6, 7, 8, 9, 10, 11, 12, 13, 14] }

theorem registerReceivers_chan (T : Type) (st : AsyncState T) :
    (registerReceivers st).chan = st.chan := by
  unfold registerReceivers
  cases st.regQueue <;> rfl

theorem registerReceivers_sleepers (T : Type) (st : AsyncState T) :
    (registerReceivers st).sleepers = st.sleepers ++ st.regQueue.take 1 := by
  unfold registerReceivers
  cases st.regQueue with
  | nil => simp
  | cons h t => simp

theorem startSend_sleepers (T : Type) (st : AsyncState T) (item : T) :
    (startSend st item).2.1.sleepers = st.sleepers ++ st.regQueue.take 1 := by
  rw [← registerReceivers_sleepers T st]
  unfold startSend
  cases hb : (registerReceivers st).chan.broadcast item with
  | ok ch => simp [hb, wakeAll]
  | error e => simp [hb]

theorem tryRecv_empty (T : Type) (sub : Subscriber) (ch : BareChannel T)
    (h1 : ch.log.get? sub.cursor = none) (h2 : ch.pubAlive = true) :
    sub.tryRecv ch = .error .Empty := by
  unfold Subscriber.tryRecv
  rw [h1]
  simp [h2]

theorem tryRecv_disconnected (T : Type) (sub : Subscriber) (ch : BareChannel T)
    (h1 : ch.log.get? sub.cursor = none) (h2 : ch.pubAlive = false) :
    sub.tryRecv ch = .error .Disconnected := by
  unfold Subscriber.tryRecv
  rw [h1]
  simp [h2]

theorem poll_sleepers (T : Type) (sub : Subscriber) (st : AsyncState T) (ct : Nat) :
    (sub.poll st ct).2.2.sleepers = st.sleepers := by
  unfold Subscriber.poll
  cases h : sub.tryRecv st.chan with
  | ok p => obtain ⟨x, s⟩ := p; simp [h]
  | error e => cases e <;> simp [h]

theorem poll_sleeperId (T : Type) (sub : Subscriber) (st : AsyncState T) (ct : Nat) :
    (sub.poll st ct).2.1.sleeperId = sub.sleeperId := by
  unfold Subscriber.poll
  cases h : sub.tryRecv st.chan with
  | ok p =>
    obtain ⟨x, s⟩ := p
    unfold Subscriber.tryRecv at h
    cases hg : st.chan.log.get? sub.cursor with
    | some y => rw [hg] at h; simp at h; simp [hg, ← h.2]
    | none =>
      rw [hg] at h
      cases hp : st.chan.pubAlive <;> rw [hp] at h <;> simp at h
  | error e => cases e <;> simp [h]

theorem poll_tasks_length (T : Type) (sub : Subscriber) (st : AsyncState T) (ct : Nat) :
    (sub.poll st ct).2.2.tasks.length = st.tasks.length := by
  unfold Subscriber.poll
  cases h : sub.tryRecv st.chan with
  | ok p => obtain ⟨x, s⟩ := p; simp [h]
  | error e => cases e <;> simp [h]

theorem poll_regQueue (T : Type) (sub : Subscriber) (st : AsyncState T) (ct : Nat) :
    (sub.poll st ct).2.2.regQueue = st.regQueue := by
  unfold Subscriber.poll
  cases h : sub.tryRecv st.chan with
  | ok p => obtain ⟨x, s⟩ := p; simp [h]
  | error e => cases e <;> simp [h]

/-- C1 (failing evaluation): with two pending registrations (handles 1
and 2) queued, start_send succeeds and broadcasts the item, but the
single recv inside register_receivers moves only handle 1 into the
active list before the broadcast: handle 2 is still queued afterwards
and is absent from the wake events, so not every pending registration
was drained as the claim states. -/
theorem c1_pending_registration_left_queued :
    (startSend stC1 7).1 = .ok .Ready ∧
    (startSend stC1 7).2.1.chan.log = [7] ∧
    (startSend stC1 7).2.1.sleepers = [0, 1] ∧
    (startSend stC1 7).2.1.regQueue = [2] ∧
    (startSend stC1 7).2.2 = [0, 1] ∧
    ¬ 2 ∈ (startSend stC1 7).2.2 :=
  ⟨rfl, rfl, rfl, rfl, rfl, by decide⟩

/-- C2: when the bare channel broadcast fails (all subscribers gone),
start_send returns exactly that error carrying the item verbatim, emits
no wake events, and the bare channel is unchanged (the item is not
delivered at all); the only state difference is the registration drain
that precedes the broadcast attempt. -/
theorem c2_broadcast_failure_propagates (T : Type) (st : AsyncState T) (item : T)
    (h : st.chan.subCount = 0) :
    startSend st item = (.error ⟨item⟩, registerReceivers st, []) ∧
    (registerReceivers st).chan = st.chan := by
  have hb : (registerReceivers st).chan.broadcast item = .error ⟨item⟩ := by
    rw [registerReceivers_chan T st]
    unfold BareChannel.broadcast
    rw [h]
    simp
  refine ⟨?_, registerReceivers_chan T st⟩
  unfold startSend
  simp [hb]

/-- C2 witness: a concrete state with no subscribers left, where the
broadcast of item 42 fails and start_send propagates the error without
waking anyone. -/
theorem c2_witness :
    stC2w.chan.subCount = 0 ∧
    startSend stC2w 42 = (.error ⟨42⟩, registerReceivers stC2w, []) :=
  ⟨rfl, (c2_broadcast_failure_propagates Nat stC2w 42 rfl).1⟩

/-- C3 (counterexample): at a concrete empty read the Subscriber poll
returns NotReady but submits nothing through its sender: the
registration queue is empty before and after the poll, refuting the
claim that the wake handle is submitted through the sender at poll
time. -/
theorem c3_counterexample :
    ((Subscriber.mk 0 0).poll stC3c 9).1 = .ok .NotReady ∧
    stC3c.regQueue = [] ∧
    ((Subscriber.mk 0 0).poll stC3c 9).2.2.regQueue = [] :=
  ⟨rfl, rfl, rfl⟩

/-- C3 (amended): on an empty read the Subscriber poll arms for a
future wakeup by registering the current scheduler task into its own
already-submitted AtomicTask (sleeper.sleeper.register(), not a sender
submission) and returns NotReady, leaving everything else unchanged;
and the empty-read branch is the only one that returns NotReady. -/
theorem c3_poll_empty_registers_in_place (T : Type) (sub : Subscriber)
    (st : AsyncState T) (ct : Nat)
    (h1 : st.chan.log.get? sub.cursor = none) (h2 : st.chan.pubAlive = true) :
    sub.poll st ct =
      (.ok .NotReady, sub,
        { st with tasks := st.tasks.set sub.sleeperId (some ct) }) ∧
    (∀ (sub1 : Subscriber) (st1 : AsyncState T) (ct1 : Nat),
      (sub1.poll st1 ct1).1 = .ok .NotReady →
      st1.chan.log.get? sub1.cursor = none ∧ st1.chan.pubAlive = true) := by
  constructor
  · unfold Subscriber.poll
    rw [tryRecv_empty T sub st.chan h1 h2]
  · intro sub1 st1 ct1 hp
    unfold Subscriber.poll at hp
    cases h : sub1.tryRecv st1.chan with
    | ok p =>
      obtain ⟨x, s⟩ := p
      rw [h] at hp
      simp at hp
    | error e =>
      cases e with
      | Empty =>
        unfold Subscriber.tryRecv at h
        cases hg : st1.chan.log.get? sub1.cursor with
        | some x => rw [hg] at h; simp at h
        | none =>
          refine ⟨rfl, ?_⟩
          rw [hg] at h
          cases hpa : st1.chan.pubAlive with
          | true => rfl
          | false => rw [hpa] at h; simp at h
      | Disconnected => rw [h] at hp; simp at hp

/-- C3 witness: a concrete exhausted log with a live publisher, where
the poll of a Subscriber at cursor 2 with wake handle 1 registers the
current task 7 into heap cell 1 and returns NotReady. -/
theorem c3_witness :
    stC3w.chan.log.get? 2 = none ∧
    stC3w.chan.pubAlive = true ∧
    (Subscriber.mk 2 1).poll stC3w 7 =
      (.ok .NotReady, Subscriber.mk 2 1,
        { stC3w with tasks := stC3w.tasks.set 1 (some 7) }) :=
  ⟨rfl, rfl,
    (c3_poll_empty_registers_in_place Nat (Subscriber.mk 2 1) stC3w 7 rfl rfl).1⟩

/-- C4: when the bare cursor reports Disconnected (publisher gone and
log drained), the Subscriber poll returns Ok(Ready(None)) and leaves
both the subscriber and the state unchanged, so the terminal state is
absorbing: every sequence of subsequent polls returns Ready(None) at
every step. -/
theorem c4_disconnected_terminal (T : Type) (sub : Subscriber)
    (st : AsyncState T)
    (h1 : st.chan.log.get? sub.cursor = none) (h2 : st.chan.pubAlive = false) :
    (∀ ct, sub.poll st ct = (.ok (.Ready none), sub, st)) ∧
    (∀ cts : List Nat, pollTrace sub st cts = cts.map fun _ => .ok (.Ready none)) := by
  have hp : ∀ ct : Nat, sub.poll st ct = (.ok (.Ready none), sub, st) := by
    intro ct
    unfold Subscriber.poll
    rw [tryRecv_disconnected T sub st.chan h1 h2]
  refine ⟨hp, ?_⟩
  intro cts
  induction cts with
  | nil => rfl
  | cons c cs ih => simp [pollTrace, hp c, ih]

/-- C4 witness: a concrete state with the publisher gone and the log
drained, where one poll and a run of three successive polls all return
end-of-sequence. -/
theorem c4_witness :
    stC4w.chan.log.get? 1 = none ∧
    stC4w.chan.pubAlive = false ∧
    (Subscriber.mk 1 0).poll stC4w 0 = (.ok (.Ready none), Subscriber.mk 1 0, stC4w) ∧
    pollTrace (Subscriber.mk 1 0) stC4w [4, 5, 6] =
      [.ok (.Ready none), .ok (.Ready none), .ok (.Ready none)] := by
  have h := c4_disconnected_terminal Nat (Subscriber.mk 1 0) stC4w rfl rfl
  exact ⟨rfl, rfl, h.1 0, by rw [h.2 [4, 5, 6]]; rfl⟩

/-- C5 (counterexample): with the bounded registration queue already
full, the freshly minted handle (id 11) of a clone is not submitted at
all: the queue is unchanged and does not contain it, refuting the
unconditional claim that the fresh handle is submitted through the
sender. -/
theorem c5_counterexample :
    ((Subscriber.mk 0 0).clone stC5c).1.sleeperId = 11 ∧
    ((Subscriber.mk 0 0).clone stC5c).2.regQueue = stC5c.regQueue ∧
    ¬ 11 ∈ ((Subscriber.mk 0 0).clone stC5c).2.regQueue :=
  ⟨rfl, rfl, by decide⟩

/-- C5 (amended): provided the registration queue is below its
capacity, clone yields a Subscriber with an independent copy of the
parent cursor position and a freshly minted wake handle — a new
unregistered heap cell whose id is the old heap length — submitted
through the shared sender into the registration queue; the clone never
shares its wake identity with its (well-formed) parent. -/
theorem c5_clone_fresh_handle (T : Type) (sub : Subscriber) (st : AsyncState T)
    (h1 : st.regQueue.length < regQueueCapacity)
    (h2 : sub.sleeperId < st.tasks.length) :
    (sub.clone st).1.cursor = sub.cursor ∧
    (sub.clone st).1.sleeperId = st.tasks.length ∧
    (sub.clone st).2.tasks = st.tasks ++ [none] ∧
    (sub.clone st).2.regQueue = st.regQueue ++ [st.tasks.length] ∧
    (sub.clone st).1.sleeperId ≠ sub.sleeperId := by
  unfold Subscriber.clone
  refine ⟨rfl, rfl, rfl, ?_, ?_⟩
  · simp [h1]
  · simp
    omega

/-- C5 witness: a concrete two-handle state with an empty registration
queue, where cloning the Subscriber with handle 1 mints handle 2,
enqueues it, and keeps the parent cursor position. -/
theorem c5_witness :
    stC5w.regQueue.length < regQueueCapacity ∧
    (1 : Nat) < stC5w.tasks.length ∧
    ((Subscriber.mk 3 1).clone stC5w).1.cursor = 3 ∧
    ((Subscriber.mk 3 1).clone stC5w).1.sleeperId = 2 ∧
    ((Subscriber.mk 3 1).clone stC5w).2.regQueue = [2] ∧
    ((Subscriber.mk 3 1).clone stC5w).1.sleeperId ≠ 1 := by
  have h := c5_clone_fresh_handle Nat (Subscriber.mk 3 1) stC5w (by decide) (by decide)
  exact ⟨by decide, by decide, h.1, h.2.1, h.2.2.2.1, h.2.2.2.2⟩

/-- C6 (failing evaluation): with the registration queue at its full
capacity of 10, clone returns normally — a Subscriber carrying fresh
handle 12 — while the submission is silently dropped: the queue is
unchanged, and the fresh handle is neither queued nor active, with no
error surfaced anywhere (the clone has no error channel at all). -/
theorem c6_full_queue_submission_swallowed :
    stC6.regQueue.length = regQueueCapacity ∧
    ((Subscriber.mk 4 1).clone stC6).1.sleeperId = 12 ∧
    ((Subscriber.mk 4 1).clone stC6).2.regQueue = stC6.regQueue ∧
    ¬ 12 ∈ ((Subscriber.mk 4 1).clone stC6).2.regQueue ∧
    ¬ 12 ∈ ((Subscriber.mk 4 1).clone stC6).2.sleepers :=
  ⟨rfl, rfl, rfl, by decide, by decide⟩

/-- C7 (failing evaluation): with two registrations (handles 2 and 3)
queued, register_receivers appends only handle 2 to the active list and
leaves handle 3 queued, so it does not drain every queued registration
as both the claim and its own doc comment state. -/
theorem c7_register_receivers_takes_one :
    (registerReceivers stC7).sleepers = [0, 2] ∧
    (registerReceivers stC7).regQueue = [3] ∧
    (registerReceivers stC7).regQueue ≠ [] :=
  ⟨rfl, rfl, by decide⟩

/-- C8: the active sleepers list never shrinks: register_receivers and
start_send extend it at the end by the drained registrations, and poll,
clone, poll_complete, close, publisher drop and subscriber drop leave it
exactly unchanged (wake_all does not change state at all). -/
theorem c8_sleepers_never_shrink (T : Type) (st : AsyncState T)
    (sub : Subscriber) (item : T) (ct : Nat) :
    (registerReceivers st).sleepers = st.sleepers ++ st.regQueue.take 1 ∧
    (startSend st item).2.1.sleepers = st.sleepers ++ st.regQueue.take 1 ∧
    (sub.poll st ct).2.2.sleepers = st.sleepers ∧
    (sub.clone st).2.sleepers = st.sleepers ∧
    (pollComplete st).2.sleepers = st.sleepers ∧
    (close st).2.sleepers = st.sleepers ∧
    (dropPublisher st).sleepers = st.sleepers ∧
    (dropSubscriber st).sleepers = st.sleepers :=
  ⟨registerReceivers_sleepers T st, startSend_sleepers T st item,
   poll_sleepers T sub st ct, rfl, rfl, rfl, rfl, rfl⟩

/-- C9: poll_complete always returns Ok(Ready(())) with the state
unchanged, close is exactly poll_complete, and any number of repeated
closes ends in the same state with every call returning Ok(Ready(())). -/
theorem c9_flush_close_noop (T : Type) (st : AsyncState T) :
    pollComplete st = (.ok (.Ready ()), st) ∧
    close st = pollComplete st ∧
    ∀ n, closeN st n = (st, List.replicate n (.ok (.Ready ()))) := by
  refine ⟨rfl, rfl, ?_⟩
  intro n
  induction n with
  | zero => rfl
  | succ n ih => simp [closeN, close, pollComplete, ih, List.replicate_succ]

/-- C10 (counterexample): at a full registration queue the fresh handle
minted by clone (id 15) is submitted zero times, not exactly once as the
claim states for every clone. -/
theorem c10_counterexample :
    ((Subscriber.mk 0 0).clone stC10c).1.sleeperId = 15 ∧
    (((Subscriber.mk 0 0).clone stC10c).2.regQueue.count 15) = 0 :=
  ⟨rfl, by decide⟩

/-- C10 (amended): a Subscriber wake identity is fixed for its whole
lifetime: poll (in every branch) keeps sleeperId, mints no handle (the
heap length is unchanged) and submits nothing (the registration queue is
unchanged), so repeated suspensions add nothing to the bounded queue;
clone mints exactly one fresh handle and submits it at most once —
exactly once when the queue is below capacity, not at all when it is
full; and channel construction mints exactly one handle, seeds it
directly into the active list and submits nothing through the queue. -/
theorem c10_wake_identity_fixed (T : Type) (sub : Subscriber)
    (st : AsyncState T) (ct : Nat) (size : Nat) :
    (sub.poll st ct).2.1.sleeperId = sub.sleeperId ∧
    (sub.poll st ct).2.2.tasks.length = st.tasks.length ∧
    (sub.poll st ct).2.2.regQueue = st.regQueue ∧
    (sub.clone st).2.tasks.length = st.tasks.length + 1 ∧
    ((sub.clone st).2.regQueue = st.regQueue ++ [(sub.clone st).1.sleeperId ] ∨
     (sub.clone st).2.regQueue = st.regQueue) ∧
    (channel T size).1.tasks.length = 1 ∧
    (channel T size).1.sleepers = [0] ∧
    (channel T size).1.regQueue = [] ∧
    (channel T size).2.sleeperId = 0 := by
  refine ⟨poll_sleeperId T sub st ct, poll_tasks_length T sub st ct,
    poll_regQueue T sub st ct, ?_, ?_, rfl, rfl, rfl, rfl⟩
  · simp [Subscriber.clone]
  · unfold Subscriber.clone
    by_cases h : st.regQueue.length < regQueueCapacity
    · left; simp [h]
    · right; simp [h]

end BusQueue
